import Mathlib

/-! Tab view (`src/extra/widgets/tabview/lv_tabview.c`)

A shallow embedding of the tab view widget: the widget instance with its two
children (the selector button matrix and the scrolling content container), the
public operations `lv_tabview_create`, `lv_tabview_add_tab`,
`lv_tabview_set_act`, `lv_tabview_get_tab_act`, and the two event callbacks
`btns_event_cb` and `cont_event_cb`.

Machine integers are natural numbers / integers with explicit reductions:
`uint32_t` values are reduced modulo `2 ^ 32`, the 16-bit fields of the widget
modulo `2 ^ 16`, and values stored in an `lv_coord_t` are narrowed to the
signed range of its width.  Operations that can execute an undefined C
operation return that as a `Fault` in `Except`.
-/

namespace LvTabview

/-! ## Machine integers -/

/-- Number of values of a `uint32_t`. -/
def UINT32_RANGE : Nat := 4294967296

/-- Number of values of a `uint16_t`. -/
def UINT16_RANGE : Nat := 65536

/-- Conversion of an integer value to `uint32_t`. -/
def to_uint32 (v : Int) : Nat := (v % (UINT32_RANGE : Int)).toNat

/-- Conversion of an unsigned value to `uint16_t`. -/
def to_uint16 (v : Nat) : Nat := v % UINT16_RANGE

/-- Conversion of an integer value to a signed `lv_coord_t` of `bits` bits
(two's complement narrowing). -/
def to_coord (bits : Nat) (v : Int) : Int :=
  (v + 2 ^ (bits - 1)) % 2 ^ bits - 2 ^ (bits - 1)

/-- The values an `lv_coord_t` of `bits` bits can hold. -/
def coord_range (bits : Nat) (v : Int) : Prop :=
  -(2 ^ (bits - 1)) ≤ v ∧ v < 2 ^ (bits - 1)

/-! ## Collaborators

The layout/style provider, the object tree and the button matrix are not part
of `lv_tabview.c`; the values they hand to the tab view are gathered in `Env`,
their state is kept as far as the tab view reads or writes it. -/

/-- What the collaborators report during one call.  `lv_coord_t` is declared in
`lv_area.h`, outside the sources at hand, so its width is the field
`coord_bits` (16, or 32 with large coordinates). -/
structure Env where
  /-- Width of `lv_coord_t` in bits. -/
  coord_bits : Nat
  /-- Result of `lv_obj_get_width` on the first page. -/
  page_width : Int
  /-- Result of `lv_obj_get_style_pad_column(cont, LV_PART_MAIN)`. -/
  pad_column : Int
  /-- Result of `lv_obj_get_width_fit(cont)`. -/
  width_fit : Int
  /-- The `x` of the point stored by `lv_obj_get_scroll_end(cont, &p)`. -/
  scroll_end_x : Int
  /-- Result of `lv_btnmatrix_get_active_btn(btns)`. -/
  active_btn : Nat
deriving DecidableEq

/-- Undefined C operations the tab view code can run into. -/
inductive Fault where
  /-- Reading the width of the first page, `lv_obj_get_child(cont, 0)`, when
  the content container has no child; carries the index after the clamp. -/
  | null_first_page (id : Nat)
  /-- Division by a zero `lv_obj_get_width_fit(cont)`. -/
  | div_by_zero
  /-- A copy that reads more entries than the old map holds. -/
  | read_past_old_map (wanted available : Nat)
deriving DecidableEq

/-- Events the two callbacks distinguish. -/
inductive lv_event_t where
  | LV_EVENT_VALUE_CHANGED
  | LV_EVENT_SCROLL_END
  | LV_EVENT_OTHER (code : Nat)
deriving DecidableEq

/-- Control flags of one selector button, as far as the tab view sets them. -/
structure lv_btnmatrix_ctrl_t where
  checkable : Bool
  click_trig : Bool
  no_repeat : Bool
  checked : Bool
deriving DecidableEq

/-- No flag set. -/
def ctrl_none : lv_btnmatrix_ctrl_t := ⟨false, false, false, false⟩

/-- The constant `LV_BTNMATRIX_CTRL_CHECKED`. -/
def LV_BTNMATRIX_CTRL_CHECKED : lv_btnmatrix_ctrl_t := ⟨false, false, false, true⟩

/-- The flags `LV_BTNMATRIX_CTRL_CHECKABLE | LV_BTNMATRIX_CTRL_CLICK_TRIG |
LV_BTNMATRIX_CTRL_NO_REPEAT`. -/
def TAB_BTN_CTRL : lv_btnmatrix_ctrl_t := ⟨true, true, true, false⟩

/-- Bitwise or of two flag sets. -/
def ctrl_or (a b : lv_btnmatrix_ctrl_t) : lv_btnmatrix_ctrl_t :=
  ⟨a.checkable || b.checkable, a.click_trig || b.click_trig,
   a.no_repeat || b.no_repeat, a.checked || b.checked⟩

/-- Flag set `a` with the `checked` flag removed. -/
def ctrl_clear_checked (a : lv_btnmatrix_ctrl_t) : lv_btnmatrix_ctrl_t :=
  ⟨a.checkable, a.click_trig, a.no_repeat, false⟩

/-- The selector: its map (the labels followed by the empty-string
terminator), one flag set per button, and the one-checked mode. -/
structure lv_btnmatrix_t where
  map : List String
  ctrl_bits : List lv_btnmatrix_ctrl_t
  one_check : Bool
deriving DecidableEq

/-- Modelled from the spec: `lv_btnmatrix_create` of the button matrix widget
(not among the sources); a selector without map. -/
def lv_btnmatrix_create : lv_btnmatrix_t := ⟨[], [], false⟩

/-- Modelled from the spec: `lv_btnmatrix_set_one_checked` of the button matrix
widget, the single-checked-button mode. -/
def lv_btnmatrix_set_one_checked (b : lv_btnmatrix_t) (en : Bool) : lv_btnmatrix_t :=
  { b with one_check := en }

/-- Modelled from the spec: `lv_btnmatrix_set_map` of the button matrix widget,
"set map"; the buttons are the entries before the terminator and the control
flags of all of them are cleared. -/
def lv_btnmatrix_set_map (b : lv_btnmatrix_t) (map : List String) : lv_btnmatrix_t :=
  { b with map := map, ctrl_bits := List.replicate (map.length - 1) ctrl_none }

/-- Modelled from the spec: `lv_btnmatrix_get_map` of the button matrix widget,
the map set last. -/
def lv_btnmatrix_get_map (b : lv_btnmatrix_t) : List String := b.map

/-- Modelled from the spec: `lv_btnmatrix_set_btn_ctrl_all` of the button
matrix widget, "set all controls": the flags are added to every button. -/
def lv_btnmatrix_set_btn_ctrl_all (b : lv_btnmatrix_t) (ctrl : lv_btnmatrix_ctrl_t) :
    lv_btnmatrix_t :=
  { b with ctrl_bits := b.ctrl_bits.map (fun c => ctrl_or c ctrl) }

/-- Flags `ctrl` added to the button at position `id` of a flag list. -/
def ctrl_or_at : List lv_btnmatrix_ctrl_t → Nat → lv_btnmatrix_ctrl_t →
    List lv_btnmatrix_ctrl_t
  | [], _, _ => []
  | c :: cs, 0, ctrl => ctrl_or c ctrl :: cs
  | c :: cs, id + 1, ctrl => c :: ctrl_or_at cs id ctrl

/-- Modelled from the spec: `lv_btnmatrix_set_btn_ctrl` of the button matrix
widget, "set checked control": nothing happens for an index that is not a
button; in one-checked mode adding `checked` first removes it from every
button. -/
def lv_btnmatrix_set_btn_ctrl (b : lv_btnmatrix_t) (id : Nat) (ctrl : lv_btnmatrix_ctrl_t) :
    lv_btnmatrix_t :=
  if b.ctrl_bits.length ≤ id then b
  else
    let cleared :=
      if b.one_check && ctrl.checked then b.ctrl_bits.map ctrl_clear_checked
      else b.ctrl_bits
    { b with ctrl_bits := ctrl_or_at cleared id ctrl }

/-- Indices, counted from `start`, of the buttons whose `checked` flag is set. -/
def checked_from : Nat → List lv_btnmatrix_ctrl_t → List Nat
  | _, [] => []
  | start, c :: cs =>
    if c.checked then start :: checked_from (start + 1) cs
    else checked_from (start + 1) cs

/-- Indices of the selector buttons that are marked checked. -/
def checked_btns (b : lv_btnmatrix_t) : List Nat := checked_from 0 b.ctrl_bits

/-- One call of `lv_obj_scroll_to_x` on the content container. -/
structure scroll_call where
  x : Int
  anim_en : Bool
deriving DecidableEq

/-- The content container: the number of its children (one page per tab), as
the object tree counts them, and the `lv_obj_scroll_to_x` calls it has
received, oldest first. -/
structure lv_cont_t where
  child_cnt : Nat
  scroll_calls : List scroll_call
deriving DecidableEq

/-- Modelled from the spec: `lv_obj_create(cont, NULL)` of the object tree, one
more child of the container. -/
def lv_obj_create (cont : lv_cont_t) : lv_cont_t :=
  { cont with child_cnt := cont.child_cnt + 1 }

/-- Modelled from the spec: `lv_obj_get_child_cnt` of the object tree. -/
def lv_obj_get_child_cnt (cont : lv_cont_t) : Nat := cont.child_cnt

/-- Modelled from the spec: `lv_obj_get_child` of the object tree; `none` is
the `NULL` returned when the container has no child of that index. -/
def lv_obj_get_child (cont : lv_cont_t) (id : Nat) : Option Nat :=
  if id < cont.child_cnt then some id else none

/-- Modelled from the spec: `lv_obj_scroll_to_x(cont, x, anim_en)` of the
scroll engine, recorded as a call. -/
def lv_obj_scroll_to_x (cont : lv_cont_t) (x : Int) (anim_en : Bool) : lv_cont_t :=
  { cont with scroll_calls := cont.scroll_calls ++ [⟨x, anim_en⟩] }

/-- The copy `lv_memcpy_small(dst, src, sizeof(const char *) * n)` of the first
`n` map entries; reading beyond the source is a fault. -/
def lv_memcpy_small (src : List String) (n : Nat) : Except Fault (List String) :=
  if n ≤ src.length then .ok (src.take n) else .error (.read_past_old_map n src.length)

/-! ## The tab view -/

/-- Modelled from the spec: the widget instance `lv_tabview_t`, declared in
`lv_tabview.h` (not among the sources): the unsigned `tab_cnt` (tab_count) and
`tab_cur` (active_tab_index), held as the `uint16_t` that
`lv_tabview_get_tab_act` returns, with the two children of the widget. -/
structure lv_tabview_t where
  tab_cnt : Nat
  tab_cur : Nat
  btns : lv_btnmatrix_t
  cont : lv_cont_t
deriving DecidableEq

/-- The child 1 of the tab view. -/
def lv_tabview_get_content (tv : lv_tabview_t) : lv_cont_t := tv.cont

/-- The child 0 of the tab view. -/
def lv_tabview_get_tab_btns (tv : lv_tabview_t) : lv_btnmatrix_t := tv.btns

/-- The constructor `lv_tabview_constructor`: the selector is put in
one-checked mode and gets the map holding only the terminator, the content
container has no page; `tab_cnt` and `tab_cur` are not assigned and keep the
zero of the instance memory the object tree hands over (the state "no tabs"). -/
def lv_tabview_constructor : lv_tabview_t :=
  let btnm := lv_btnmatrix_create
  let cont : lv_cont_t := ⟨0, []⟩
  let btnm := lv_btnmatrix_set_one_checked btnm true
  let map := [""]
  let btnm := lv_btnmatrix_set_map btnm map
  { tab_cnt := 0, tab_cur := 0, btns := btnm, cont := cont }

/-- The operation `lv_tabview_create`: a freshly created tab view. -/
def lv_tabview_create : lv_tabview_t := lv_tabview_constructor

/-- The index after `if(id >= tabview->tab_cnt) id = tabview->tab_cnt - 1;`,
the subtraction done in `int` and stored in the `uint32_t` id. -/
def clamp_id (tab_cnt id : Nat) : Nat :=
  if id ≥ tab_cnt then to_uint32 ((tab_cnt : Int) - 1) else id

/-- The argument `id * (gap + lv_obj_get_width(tab))` of the scroll call: the
sum is converted to `uint32_t`, the product is taken modulo `2 ^ 32` and
narrowed to the `lv_coord_t` parameter. -/
def scroll_target (env : Env) (id : Nat) : Int :=
  to_coord env.coord_bits
    (((id * to_uint32 (env.pad_column + env.page_width)) % UINT32_RANGE : Nat) : Int)

/-- The operation `lv_tabview_set_act`. -/
def lv_tabview_set_act (env : Env) (tv : lv_tabview_t) (id : Nat) :
    Except Fault lv_tabview_t :=
  let id := clamp_id tv.tab_cnt id
  let cont := lv_tabview_get_content tv
  match lv_obj_get_child cont 0 with
  | none => .error (.null_first_page id)
  | some _ =>
    let cont := lv_obj_scroll_to_x cont (scroll_target env id) true
    let btns := lv_tabview_get_tab_btns tv
    let btns := lv_btnmatrix_set_btn_ctrl btns id LV_BTNMATRIX_CTRL_CHECKED
    .ok { tv with btns := btns, cont := cont, tab_cur := to_uint16 id }

/-- The operation `lv_tabview_get_tab_act`, returning a `uint16_t`. -/
def lv_tabview_get_tab_act (tv : lv_tabview_t) : Nat := to_uint16 tv.tab_cur

/-- Number of map entries `lv_tabview_add_tab` copies from the old map when the
content container holds `tab_id` pages, the new one included: `tab_id - 1`
(`tab_id` counts the page just created, so the subtraction does not wrap). -/
def copy_count (tab_id : Nat) : Nat := tab_id - 1

/-- The first part of `lv_tabview_add_tab`, up to and including
`tabview->tab_cnt++`: the page is created, the selector map is rebuilt with the
new name before the terminator and every button gets the tab button flags. -/
def add_tab_grow (tv : lv_tabview_t) (name : String) : Except Fault lv_tabview_t :=
  let cont := lv_obj_create (lv_tabview_get_content tv)
  let tab_id := lv_obj_get_child_cnt cont
  let btns := lv_tabview_get_tab_btns tv
  let old_map := lv_btnmatrix_get_map btns
  match lv_memcpy_small old_map (copy_count tab_id) with
  | .error f => .error f
  | .ok copied =>
    let new_map := copied ++ [name] ++ [""]
    let btns := lv_btnmatrix_set_map btns new_map
    let btns := lv_btnmatrix_set_btn_ctrl_all btns TAB_BTN_CTRL
    .ok { tv with btns := btns, cont := cont, tab_cnt := to_uint16 (tv.tab_cnt + 1) }

/-- The last statement of `lv_tabview_add_tab`: the button of the active tab
is marked checked. -/
def add_tab_check (tv : lv_tabview_t) : lv_tabview_t :=
  { tv with
    btns := lv_btnmatrix_set_btn_ctrl (lv_tabview_get_tab_btns tv) tv.tab_cur
      LV_BTNMATRIX_CTRL_CHECKED }

/-- The operation `lv_tabview_add_tab`; the returned page is the last child of
the content container of the result. -/
def lv_tabview_add_tab (env : Env) (tv : lv_tabview_t) (name : String) :
    Except Fault lv_tabview_t :=
  match add_tab_grow tv name with
  | .error f => .error f
  | .ok tv1 =>
    match (if tv1.tab_cnt = 1 then lv_tabview_set_act env tv1 0 else .ok tv1) with
    | .error f => .error f
    | .ok tv2 => .ok (add_tab_check tv2)

/-- The callback `btns_event_cb` of the selector. -/
def btns_event_cb (env : Env) (tv : lv_tabview_t) (e : lv_event_t) :
    Except Fault lv_tabview_t :=
  if e = lv_event_t.LV_EVENT_VALUE_CHANGED then
    let id := env.active_btn
    lv_tabview_set_act env tv id
  else .ok tv

/-- The value of `t` in `cont_event_cb` for a non-zero `w`: the truncating
quotient `(p.x + w / 2) / w` stored in an `lv_coord_t`, then raised to 0 when
negative. -/
def nearest_tab (bits : Nat) (x w : Int) : Int :=
  let t := to_coord bits (Int.tdiv (x + Int.tdiv w 2) w)
  if t < 0 then 0 else t

/-- The callback `cont_event_cb` of the content container. -/
def cont_event_cb (env : Env) (tv : lv_tabview_t) (e : lv_event_t) :
    Except Fault lv_tabview_t :=
  if e = lv_event_t.LV_EVENT_SCROLL_END then
    let w := env.width_fit
    if w = 0 then .error .div_by_zero
    else
      let t := nearest_tab env.coord_bits env.scroll_end_x w
      lv_tabview_set_act env tv (to_uint32 t)
  else .ok tv

/-! ## Runs of operations -/

/-- What can happen to a tab view: the two public mutators and the events
delivered to the two callbacks. -/
inductive Op where
  | add_tab (name : String)
  | set_act (id : Nat)
  | btns_event (e : lv_event_t)
  | cont_event (e : lv_event_t)
deriving DecidableEq

/-- One operation on a tab view, the collaborators answering as `env`. -/
def step (env : Env) (tv : lv_tabview_t) : Op → Except Fault lv_tabview_t
  | .add_tab name => lv_tabview_add_tab env tv name
  | .set_act id => lv_tabview_set_act env tv id
  | .btns_event e => btns_event_cb env tv e
  | .cont_event e => cont_event_cb env tv e

/-- The tab views: the states reached from a freshly created one by operations
that complete. -/
inductive Reachable : lv_tabview_t → Prop where
  | create : Reachable lv_tabview_create
  | step (env : Env) (op : Op) {tv tv1 : lv_tabview_t} :
      Reachable tv → step env tv op = .ok tv1 → Reachable tv1

/-- The tab views built through create and add_tab only, with the number of
`lv_tabview_add_tab` calls made. -/
inductive BuiltByAdds : Nat → lv_tabview_t → Prop where
  | create : BuiltByAdds 0 lv_tabview_create
  | add (env : Env) (name : String) {n : Nat} {tv tv1 : lv_tabview_t} :
      BuiltByAdds n tv → lv_tabview_add_tab env tv name = .ok tv1 → BuiltByAdds (n + 1) tv1

/-- The call `lv_tabview_add_tab` once per name, in order, starting from `tv`. -/
def add_tabs (env : Env) (tv : lv_tabview_t) : List String → Except Fault lv_tabview_t
  | [] => .ok tv
  | name :: names =>
    match lv_tabview_add_tab env tv name with
    | .error f => .error f
    | .ok tv1 => add_tabs env tv1 names

/-- A layout with 16-bit coordinates, pages 300 wide, no gap. -/
def env300 : Env :=
  { coord_bits := 16, page_width := 300, pad_column := 0, width_fit := 300,
    scroll_end_x := 0, active_btn := 0 }

/-- A layout with 16-bit coordinates, pages 320 wide, no gap. -/
def env320 : Env :=
  { coord_bits := 16, page_width := 320, pad_column := 0, width_fit := 320,
    scroll_end_x := 0, active_btn := 0 }

/-- A layout with 32-bit coordinates, pages 32770 wide, no gap. -/
def env_large : Env :=
  { coord_bits := 32, page_width := 32770, pad_column := 0, width_fit := 32770,
    scroll_end_x := 0, active_btn := 0 }

/-- The tab view after `lv_tabview_add_tab` for "A", "B" and "C" on a freshly
created one, laid out as `env300`. -/
def tabs3 : lv_tabview_t :=
  { tab_cnt := 3, tab_cur := 0,
    btns :=
      { map := ["A", "B", "C", ""],
        ctrl_bits := [⟨true, true, true, true⟩, ⟨true, true, true, false⟩,
          ⟨true, true, true, false⟩],
        one_check := true },
    cont := { child_cnt := 3, scroll_calls := [⟨0, true⟩] } }

/-- What every tab view satisfies: `tab_cnt` is the page count as a `uint16_t`,
the selector map holds one entry per page and then the terminator, every page
has a button, the selector is in one-checked mode, and the active index is a
`uint16_t` below `tab_cnt` once there is a tab. -/
def tv_inv (tv : lv_tabview_t) : Prop :=
  tv.tab_cnt = to_uint16 tv.cont.child_cnt ∧
  (tv.btns.map.length = tv.cont.child_cnt + 1 ∧
    tv.btns.map.drop tv.cont.child_cnt = [""]) ∧
  tv.btns.ctrl_bits.length = tv.cont.child_cnt ∧
  tv.btns.one_check = true ∧
  tv.tab_cur < UINT16_RANGE ∧
  (0 < tv.tab_cnt → tv.tab_cur < tv.tab_cnt)

/-! ## Machine arithmetic -/

theorem to_coord_eq_self (bits : Nat) (v : Int) (hb : 0 < bits)
    (hv : coord_range bits v) : to_coord bits v = v := by
  obtain ⟨k, rfl⟩ : ∃ k, bits = k + 1 := ⟨bits - 1, by omega⟩
  unfold coord_range at hv
  unfold to_coord
  simp only [Nat.add_sub_cancel] at hv ⊢
  have h2 : (2 : Int) ^ (k + 1) = 2 * 2 ^ k := by ring
  rw [h2, Int.emod_eq_of_lt (by omega) (by omega)]
  omega

theorem to_coord_congr (bits : Nat) (a b : Int)
    (h : a % 2 ^ bits = b % 2 ^ bits) : to_coord bits a = to_coord bits b := by
  unfold to_coord
  rw [Int.add_emod a, Int.add_emod b, h]

theorem to_uint32_cast (v : Int) : ((to_uint32 v : Nat) : Int) = v % 4294967296 := by
  unfold to_uint32 UINT32_RANGE
  omega

theorem scroll_target_narrow (env : Env) (id : Nat) (hb32 : env.coord_bits ≤ 32) :
    scroll_target env id
      = to_coord env.coord_bits ((id : Int) * (env.page_width + env.pad_column)) := by
  unfold scroll_target
  apply to_coord_congr
  have hdvd : (2 : Int) ^ env.coord_bits ∣ 4294967296 := by
    have : (4294967296 : Int) = 2 ^ 32 := by norm_num
    rw [this]
    exact pow_dvd_pow 2 hb32
  have hcast : (((id * to_uint32 (env.pad_column + env.page_width)) % UINT32_RANGE : Nat) : Int)
      = ((id : Int) * ((env.pad_column + env.page_width) % 4294967296)) % 4294967296 := by
    rw [Int.natCast_mod, Nat.cast_mul, to_uint32_cast]
    rfl
  rw [hcast, Int.emod_emod_of_dvd _ hdvd, Int.mul_emod, Int.emod_emod_of_dvd _ hdvd,
    ← Int.mul_emod, add_comm env.pad_column]

theorem scroll_target_eq (env : Env) (id : Nat) (hb : 0 < env.coord_bits)
    (hb32 : env.coord_bits ≤ 32)
    (hfit : coord_range env.coord_bits ((id : Int) * (env.page_width + env.pad_column))) :
    scroll_target env id = (id : Int) * (env.page_width + env.pad_column) := by
  rw [scroll_target_narrow env id hb32, to_coord_eq_self env.coord_bits _ hb hfit]

theorem nearest_tab_bracket (x w : Int) (hx : 0 ≤ x) (hpos : 0 < w) :
    max 0 ((x + w / 2) / w) * w ≤ x + w / 2 ∧
      x + w / 2 < (max 0 ((x + w / 2) / w) + 1) * w := by
  have hq0 : 0 ≤ (x + w / 2) / w := Int.ediv_nonneg (by omega) (by omega)
  rw [max_eq_right hq0]
  constructor
  · exact Int.ediv_mul_le _ (by omega)
  · have := Int.lt_mul_ediv_self_add (x := x + w / 2) hpos
    nlinarith

/-! ## The selector -/

theorem checked_from_cleared (start : Nat) (l : List lv_btnmatrix_ctrl_t) :
    checked_from start (l.map ctrl_clear_checked) = [] := by
  induction l generalizing start with
  | nil => rfl
  | cons c cs ih => simp [checked_from, ctrl_clear_checked, ih]

theorem checked_from_or_at (start id : Nat) (l : List lv_btnmatrix_ctrl_t)
    (hid : id < l.length) :
    checked_from start (ctrl_or_at (l.map ctrl_clear_checked) id LV_BTNMATRIX_CTRL_CHECKED)
      = [start + id] := by
  induction l generalizing start id with
  | nil => simp at hid
  | cons c cs ih =>
    cases id with
    | zero =>
      simp [ctrl_or_at, checked_from, ctrl_or, LV_BTNMATRIX_CTRL_CHECKED,
        checked_from_cleared]
    | succ j =>
      have hj : j < cs.length := by simpa using hid
      simp only [List.map_cons, ctrl_or_at, checked_from]
      rw [ih (start + 1) j hj]
      simp [ctrl_clear_checked]
      omega

theorem ctrl_or_at_length (l : List lv_btnmatrix_ctrl_t) (id : Nat)
    (ctrl : lv_btnmatrix_ctrl_t) : (ctrl_or_at l id ctrl).length = l.length := by
  induction l generalizing id with
  | nil => rfl
  | cons c cs ih =>
    cases id with
    | zero => rfl
    | succ j => simp [ctrl_or_at, ih]

theorem set_btn_ctrl_length (b : lv_btnmatrix_t) (id : Nat) (ctrl : lv_btnmatrix_ctrl_t) :
    (lv_btnmatrix_set_btn_ctrl b id ctrl).ctrl_bits.length = b.ctrl_bits.length := by
  unfold lv_btnmatrix_set_btn_ctrl
  split
  · rfl
  · simp only [ctrl_or_at_length]
    split <;> simp

theorem set_btn_ctrl_map (b : lv_btnmatrix_t) (id : Nat) (ctrl : lv_btnmatrix_ctrl_t) :
    (lv_btnmatrix_set_btn_ctrl b id ctrl).map = b.map := by
  unfold lv_btnmatrix_set_btn_ctrl
  split <;> rfl

theorem set_btn_ctrl_one_check (b : lv_btnmatrix_t) (id : Nat) (ctrl : lv_btnmatrix_ctrl_t) :
    (lv_btnmatrix_set_btn_ctrl b id ctrl).one_check = b.one_check := by
  unfold lv_btnmatrix_set_btn_ctrl
  split <;> rfl

theorem checked_btns_set_checked (b : lv_btnmatrix_t) (id : Nat)
    (hone : b.one_check = true) (hid : id < b.ctrl_bits.length) :
    checked_btns (lv_btnmatrix_set_btn_ctrl b id LV_BTNMATRIX_CTRL_CHECKED) = [id] := by
  unfold checked_btns lv_btnmatrix_set_btn_ctrl
  rw [if_neg (by omega)]
  simp only [hone, LV_BTNMATRIX_CTRL_CHECKED, Bool.and_self, if_true]
  have h := checked_from_or_at 0 id b.ctrl_bits hid
  simpa [LV_BTNMATRIX_CTRL_CHECKED] using h

/-! ## `lv_tabview_set_act` -/

theorem clamp_id_lt (tab_cnt id : Nat) (h : id < tab_cnt) : clamp_id tab_cnt id = id := by
  unfold clamp_id
  rw [if_neg (by omega)]

theorem clamp_id_ge (tab_cnt id : Nat) (hpos : 0 < tab_cnt) (hcnt : tab_cnt < UINT16_RANGE)
    (h : tab_cnt ≤ id) : clamp_id tab_cnt id = tab_cnt - 1 := by
  unfold clamp_id to_uint32 UINT32_RANGE
  unfold UINT16_RANGE at hcnt
  rw [if_pos h]
  omega

theorem clamp_id_zero (id : Nat) : clamp_id 0 id = 4294967295 := by
  unfold clamp_id to_uint32 UINT32_RANGE
  simp

theorem clamp_id_eq_min (tab_cnt id : Nat) (hpos : 0 < tab_cnt)
    (hcnt : tab_cnt < UINT16_RANGE) : clamp_id tab_cnt id = min id (tab_cnt - 1) := by
  by_cases h : id < tab_cnt
  · rw [clamp_id_lt _ _ h]; omega
  · rw [clamp_id_ge _ _ hpos hcnt (by omega)]; omega

theorem set_act_ok (env : Env) (tv : lv_tabview_t) (id : Nat) (h : 0 < tv.cont.child_cnt) :
    lv_tabview_set_act env tv id = .ok
      { tv with
        btns := lv_btnmatrix_set_btn_ctrl tv.btns (clamp_id tv.tab_cnt id)
          LV_BTNMATRIX_CTRL_CHECKED
        cont := lv_obj_scroll_to_x tv.cont (scroll_target env (clamp_id tv.tab_cnt id)) true
        tab_cur := to_uint16 (clamp_id tv.tab_cnt id) } := by
  unfold lv_tabview_set_act lv_tabview_get_content lv_tabview_get_tab_btns lv_obj_get_child
  simp [h]

theorem set_act_no_page (env : Env) (tv : lv_tabview_t) (id : Nat)
    (h : tv.cont.child_cnt = 0) :
    lv_tabview_set_act env tv id = .error (.null_first_page (clamp_id tv.tab_cnt id)) := by
  unfold lv_tabview_set_act lv_tabview_get_content lv_obj_get_child
  simp [h]

/-! ## `lv_tabview_add_tab` -/

theorem drop_new_map (map : List String) (n : Nat) (name : String)
    (h : map.length = n + 1) :
    List.drop (n + 1) (List.take n map ++ [name, ""]) = [""] := by
  have hl : (List.take n map).length = n := by
    rw [List.length_take]
    omega
  rw [List.drop_append_eq_append_drop, hl, List.drop_eq_nil_of_le (by omega)]
  simp

theorem add_tab_grow_ok (tv : lv_tabview_t) (name : String)
    (hmap : tv.btns.map.length = tv.cont.child_cnt + 1) :
    add_tab_grow tv name = .ok
      { tv with
        btns :=
          { map := tv.btns.map.take tv.cont.child_cnt ++ [name] ++ [""]
            ctrl_bits := List.replicate (tv.cont.child_cnt + 1) TAB_BTN_CTRL
            one_check := tv.btns.one_check }
        cont := { tv.cont with child_cnt := tv.cont.child_cnt + 1 }
        tab_cnt := to_uint16 (tv.tab_cnt + 1) } := by
  unfold add_tab_grow lv_memcpy_small copy_count lv_obj_get_child_cnt lv_obj_create
    lv_tabview_get_content lv_tabview_get_tab_btns lv_btnmatrix_get_map
  simp only [Nat.add_sub_cancel]
  rw [if_pos (by omega)]
  simp only [lv_btnmatrix_set_btn_ctrl_all, lv_btnmatrix_set_map]
  have hlen : (List.take tv.cont.child_cnt tv.btns.map ++ [name] ++ [""]).length - 1
      = tv.cont.child_cnt + 1 := by
    simp [List.length_take]
    omega
  rw [hlen]
  simp [ctrl_or, ctrl_none, TAB_BTN_CTRL]

theorem add_tab_ok (env : Env) (tv : lv_tabview_t) (name : String) (tv1 : lv_tabview_t)
    (hgrow : add_tab_grow tv name = .ok tv1) (hpage : 0 < tv1.cont.child_cnt) :
    lv_tabview_add_tab env tv name = .ok
      (add_tab_check
        (if tv1.tab_cnt = 1 then
          { tv1 with
            btns := lv_btnmatrix_set_btn_ctrl tv1.btns 0 LV_BTNMATRIX_CTRL_CHECKED
            cont := lv_obj_scroll_to_x tv1.cont (scroll_target env 0) true
            tab_cur := 0 }
        else tv1)) := by
  unfold lv_tabview_add_tab
  rw [hgrow]
  by_cases h1 : tv1.tab_cnt = 1
  · simp only [h1, if_true]
    rw [set_act_ok env tv1 0 hpage]
    simp [h1, clamp_id, to_uint16, UINT16_RANGE]
  · simp [h1]

/-! ## The invariant of tab views -/

theorem tv_inv_create : tv_inv lv_tabview_create := by
  unfold tv_inv lv_tabview_create lv_tabview_constructor
  simp [lv_btnmatrix_set_map, lv_btnmatrix_set_one_checked, lv_btnmatrix_create,
    to_uint16, UINT16_RANGE]

theorem tv_inv_page (tv : lv_tabview_t) (h : tv_inv tv) (hpos : 0 < tv.tab_cnt) :
    0 < tv.cont.child_cnt := by
  obtain ⟨hcnt, -⟩ := h
  unfold to_uint16 UINT16_RANGE at hcnt
  by_contra hc
  have : tv.cont.child_cnt = 0 := by omega
  rw [this] at hcnt
  omega

theorem tv_inv_cnt_lt (tv : lv_tabview_t) (h : tv_inv tv) : tv.tab_cnt < UINT16_RANGE := by
  obtain ⟨hcnt, -⟩ := h
  unfold to_uint16 UINT16_RANGE at hcnt
  unfold UINT16_RANGE
  omega

theorem tv_inv_cur_btn (tv : lv_tabview_t) (h : tv_inv tv) (hpage : 0 < tv.cont.child_cnt) :
    tv.tab_cur < tv.cont.child_cnt := by
  obtain ⟨hcnt, -, -, -, h16, hcur⟩ := h
  unfold to_uint16 UINT16_RANGE at hcnt
  unfold UINT16_RANGE at h16
  by_cases hz : tv.tab_cnt = 0
  · omega
  · have := hcur (by omega)
    omega

theorem tv_inv_set_act (env : Env) (tv tv1 : lv_tabview_t) (id : Nat) (h : tv_inv tv)
    (hstep : lv_tabview_set_act env tv id = .ok tv1) : tv_inv tv1 := by
  by_cases hpage : 0 < tv.cont.child_cnt
  · rw [set_act_ok env tv id hpage] at hstep
    injection hstep with hstep
    subst hstep
    obtain ⟨hcnt, hmap, hctrl, hone, h16, hcur⟩ := h
    refine ⟨hcnt, ?_, ?_, ?_, ?_, ?_⟩
    · simpa [set_btn_ctrl_map, lv_obj_scroll_to_x] using hmap
    · simpa [set_btn_ctrl_length, lv_obj_scroll_to_x] using hctrl
    · simpa [set_btn_ctrl_one_check] using hone
    · simp only [to_uint16, UINT16_RANGE]
      omega
    · intro hpos
      have hlt : tv.tab_cnt < UINT16_RANGE := by
        unfold to_uint16 UINT16_RANGE at hcnt
        unfold UINT16_RANGE
        omega
      simp only at hpos ⊢
      rw [clamp_id_eq_min _ _ hpos hlt]
      unfold to_uint16
      unfold UINT16_RANGE at hlt ⊢
      omega
  · rw [set_act_no_page env tv id (by omega)] at hstep
    cases hstep

theorem tv_inv_add_tab (env : Env) (tv tv1 : lv_tabview_t) (name : String) (h : tv_inv tv)
    (hstep : lv_tabview_add_tab env tv name = .ok tv1) : tv_inv tv1 := by
  obtain ⟨hcnt, ⟨hmap, -⟩, hctrl, hone, h16, hcur⟩ := h
  rw [add_tab_ok env tv name _ (add_tab_grow_ok tv name hmap) (by simp)] at hstep
  injection hstep with hstep
  subst hstep
  unfold to_uint16 UINT16_RANGE at hcnt
  unfold UINT16_RANGE at h16
  unfold tv_inv add_tab_check lv_tabview_get_tab_btns
  simp only [set_btn_ctrl_map, set_btn_ctrl_length, set_btn_ctrl_one_check]
  split
  · rename_i h1
    simp only [to_uint16, UINT16_RANGE] at h1
    simp [lv_obj_scroll_to_x, set_btn_ctrl_map, set_btn_ctrl_length, set_btn_ctrl_one_check,
      hone, to_uint16, UINT16_RANGE, List.length_take, hmap, h1]
    exact ⟨by omega, drop_new_map _ _ _ hmap⟩
  · rename_i h1
    simp only [to_uint16, UINT16_RANGE] at h1
    simp [hone, to_uint16, UINT16_RANGE, List.length_take, hmap]
    refine ⟨by omega, drop_new_map _ _ _ hmap, by omega, ?_⟩
    intro hpos
    have := hcur (by omega)
    omega

theorem tv_inv_step (env : Env) (tv tv1 : lv_tabview_t) (op : Op) (h : tv_inv tv)
    (hstep : step env tv op = .ok tv1) : tv_inv tv1 := by
  cases op with
  | add_tab name => exact tv_inv_add_tab env tv tv1 name h hstep
  | set_act id => exact tv_inv_set_act env tv tv1 id h hstep
  | btns_event e =>
    simp only [step, btns_event_cb] at hstep
    split at hstep
    · exact tv_inv_set_act env tv tv1 _ h hstep
    · injection hstep with hstep
      subst hstep
      exact h
  | cont_event e =>
    simp only [step, cont_event_cb] at hstep
    split at hstep
    · split at hstep
      · cases hstep
      · exact tv_inv_set_act env tv tv1 _ h hstep
    · injection hstep with hstep
      subst hstep
      exact h

theorem reachable_inv (tv : lv_tabview_t) (h : Reachable tv) : tv_inv tv := by
  induction h with
  | create => exact tv_inv_create
  | step env op _ hstep ih => exact tv_inv_step env _ _ op ih hstep

theorem add_tab_spec (env : Env) (tv : lv_tabview_t) (name : String) (h : tv_inv tv) :
    ∃ tv1, lv_tabview_add_tab env tv name = .ok tv1 ∧
      tv1.btns.map = tv.btns.map.take tv.cont.child_cnt ++ [name] ++ [""] ∧
      tv1.cont.child_cnt = tv.cont.child_cnt + 1 ∧
      tv1.tab_cnt = to_uint16 (tv.tab_cnt + 1) ∧
      tv1.tab_cur = (if to_uint16 (tv.tab_cnt + 1) = 1 then 0 else tv.tab_cur) ∧
      tv1.cont.scroll_calls =
        (if to_uint16 (tv.tab_cnt + 1) = 1 then
          tv.cont.scroll_calls ++ [⟨scroll_target env 0, true⟩]
        else tv.cont.scroll_calls) ∧
      checked_btns tv1.btns = [tv1.tab_cur] := by
  have hcurbtn : 0 < tv.cont.child_cnt → tv.tab_cur < tv.cont.child_cnt :=
    tv_inv_cur_btn tv h
  obtain ⟨hcnt, ⟨hmap, -⟩, hctrl, hone, h16, hcur⟩ := h
  refine ⟨_, add_tab_ok env tv name _ (add_tab_grow_ok tv name hmap) (by simp), ?_⟩
  unfold add_tab_check lv_tabview_get_tab_btns
  by_cases h1 : to_uint16 (tv.tab_cnt + 1) = 1
  · simp only [h1, if_true, set_btn_ctrl_map, lv_obj_scroll_to_x, true_and]
    apply checked_btns_set_checked
    · simpa [set_btn_ctrl_one_check] using hone
    · simp [set_btn_ctrl_length]
  · simp only [h1, if_false, set_btn_ctrl_map, true_and]
    apply checked_btns_set_checked
    · simpa using hone
    · simp only [List.length_replicate]
      unfold to_uint16 UINT16_RANGE at hcnt h1
      by_cases hz : tv.cont.child_cnt = 0
      · rw [hz] at hcnt
        simp [hcnt] at h1
      · have := hcurbtn (by omega)
        omega

theorem add_tabs_spec (env : Env) (names : List String) (tv : lv_tabview_t)
    (labels : List String) (h : tv_inv tv) (hlabels : tv.btns.map = labels ++ [""]) :
    ∃ tv1, add_tabs env tv names = .ok tv1 ∧ tv_inv tv1 ∧
      tv1.btns.map = labels ++ names ++ [""] ∧
      tv1.cont.child_cnt = tv.cont.child_cnt + names.length ∧
      (tv.tab_cur = 0 → tv1.tab_cur = 0) := by
  induction names generalizing tv labels with
  | nil => exact ⟨tv, rfl, h, by simpa using hlabels, by simp, id⟩
  | cons name names ih =>
    obtain ⟨tv1, hadd, hmap1, hchild1, -, hcur1, -, -⟩ := add_tab_spec env tv name h
    have hlen : labels.length = tv.cont.child_cnt := by
      have := h.2.1.1
      rw [hlabels] at this
      simpa using this
    have hmap1a : tv1.btns.map = (labels ++ [name]) ++ [""] := by
      rw [hmap1, hlabels, ← hlen]
      simp
    obtain ⟨tv2, hrun, hinv2, hmap2, hchild2, hcur2⟩ :=
      ih tv1 (labels ++ [name]) (tv_inv_add_tab env tv tv1 name h hadd) hmap1a
    refine ⟨tv2, ?_, hinv2, ?_, ?_, ?_⟩
    · simp only [add_tabs, hadd]
      exact hrun
    · simpa using hmap2
    · rw [hchild2, hchild1, List.length_cons]
      omega
    · intro h0
      apply hcur2
      rw [hcur1]
      split
      · rfl
      · exact h0

theorem add_tabs_create (env : Env) (names : List String) :
    ∃ tv, add_tabs env lv_tabview_create names = .ok tv ∧ tv_inv tv ∧
      tv.btns.map = names ++ [""] ∧ tv.cont.child_cnt = names.length ∧
      tv.tab_cnt = to_uint16 names.length ∧ tv.tab_cur = 0 := by
  obtain ⟨tv, hrun, hinv, hmap, hchild, hcur⟩ :=
    add_tabs_spec env names lv_tabview_create [] tv_inv_create rfl
  have hchild1 : tv.cont.child_cnt = names.length := by
    rw [hchild]
    simp [lv_tabview_create, lv_tabview_constructor]
  refine ⟨tv, hrun, hinv, by simpa using hmap, hchild1, ?_, hcur rfl⟩
  rw [hinv.1, hchild1]

theorem add_tabs_reachable (env : Env) (names : List String) (tv tv1 : lv_tabview_t)
    (h : Reachable tv) (hrun : add_tabs env tv names = .ok tv1) : Reachable tv1 := by
  induction names generalizing tv with
  | nil =>
    simp only [add_tabs] at hrun
    injection hrun with hrun
    subst hrun
    exact h
  | cons name names ih =>
    simp only [add_tabs] at hrun
    split at hrun
    · cases hrun
    · rename_i tv2 hadd
      exact ih tv2 (Reachable.step env (.add_tab name) h hadd) hrun

theorem add_tabs_tabs3 : add_tabs env300 lv_tabview_create ["A", "B", "C"] = .ok tabs3 := by
  rfl

theorem reachable_tabs3 : Reachable tabs3 :=
  add_tabs_reachable env300 ["A", "B", "C"] lv_tabview_create tabs3 Reachable.create
    add_tabs_tabs3

theorem built_inv (n : Nat) (tv : lv_tabview_t) (h : BuiltByAdds n tv) :
    tv_inv tv ∧ tv.cont.child_cnt = n ∧ tv.tab_cur = 0 := by
  induction h with
  | create => exact ⟨tv_inv_create, rfl, rfl⟩
  | add env name _ hadd ih =>
    obtain ⟨tv1, hok, -, hchild, -, hcur, -⟩ := add_tab_spec env _ name ih.1
    rw [hok] at hadd
    injection hadd with hadd
    subst hadd
    refine ⟨tv_inv_add_tab env _ _ name ih.1 hok, by rw [hchild, ih.2.1], ?_⟩
    rw [hcur, ih.2.2]
    simp

theorem built_reachable (n : Nat) (tv : lv_tabview_t) (h : BuiltByAdds n tv) :
    Reachable tv := by
  induction h with
  | create => exact Reachable.create
  | add env name _ hadd ih => exact Reachable.step env (.add_tab name) ih hadd

theorem built_tabs3 : BuiltByAdds 3 tabs3 :=
  BuiltByAdds.add env300 "C"
    (BuiltByAdds.add env300 "B"
      (BuiltByAdds.add env300 "A" BuiltByAdds.create rfl) rfl) rfl

/-! ## The claims -/

/-- C1: on a tab view with `tab_cnt > 0`, `lv_tabview_set_act` with index `k`
completes without fault and leaves `tab_cur`, also as returned by
`lv_tabview_get_tab_act`, equal to `k` when `k < tab_cnt` and equal to
`tab_cnt - 1` when `k ≥ tab_cnt`. -/
theorem set_act_active_index (env : Env) (tv : lv_tabview_t) (k : Nat)
    (htv : Reachable tv) (hpos : 0 < tv.tab_cnt) :
    ∃ tv1, lv_tabview_set_act env tv k = .ok tv1 ∧
      tv1.tab_cnt = tv.tab_cnt ∧
      (k < tv.tab_cnt → tv1.tab_cur = k ∧ lv_tabview_get_tab_act tv1 = k) ∧
      (tv.tab_cnt ≤ k →
        tv1.tab_cur = tv.tab_cnt - 1 ∧ lv_tabview_get_tab_act tv1 = tv.tab_cnt - 1) := by
  have hinv := reachable_inv tv htv
  have hlt := tv_inv_cnt_lt tv hinv
  refine ⟨_, set_act_ok env tv k (tv_inv_page tv hinv hpos), rfl, ?_, ?_⟩
  · intro hk
    simp only [lv_tabview_get_tab_act, clamp_id_lt _ _ hk, to_uint16]
    unfold UINT16_RANGE at hlt ⊢
    omega
  · intro hk
    simp only [lv_tabview_get_tab_act, clamp_id_ge _ _ hpos hlt hk, to_uint16]
    unfold UINT16_RANGE at hlt ⊢
    omega

/-- Witness of C1: index 7 on the three tabs "A", "B", "C". -/
theorem set_act_active_index_witness :
    Reachable tabs3 ∧ 0 < tabs3.tab_cnt ∧
    ∃ tv1, lv_tabview_set_act env300 tabs3 7 = .ok tv1 ∧
      tv1.tab_cnt = tabs3.tab_cnt ∧
      (7 < tabs3.tab_cnt → tv1.tab_cur = 7 ∧ lv_tabview_get_tab_act tv1 = 7) ∧
      (tabs3.tab_cnt ≤ 7 →
        tv1.tab_cur = tabs3.tab_cnt - 1 ∧ lv_tabview_get_tab_act tv1 = tabs3.tab_cnt - 1) :=
  ⟨reachable_tabs3, by decide, set_act_active_index env300 tabs3 7 reachable_tabs3 (by decide)⟩

/-- C3, amended: for every N below 65536 and every list of N tab names,
`lv_tabview_add_tab` once per name on a freshly created tab view completes and
yields `tab_cnt == N` and a selector map of exactly N + 1 entries whose first
N entries are the names in call order and whose last entry is the empty
string. -/
theorem add_tabs_count_and_map (env : Env) (names : List String)
    (hlen : names.length < 65536) :
    ∃ tv, add_tabs env lv_tabview_create names = .ok tv ∧
      tv.tab_cnt = names.length ∧
      tv.btns.map.length = names.length + 1 ∧
      tv.btns.map.take names.length = names ∧
      tv.btns.map.getLast? = some "" := by
  obtain ⟨tv, hrun, -, hmap, -, hcnt, -⟩ := add_tabs_create env names
  refine ⟨tv, hrun, ?_, ?_, ?_, ?_⟩
  · rw [hcnt]
    unfold to_uint16 UINT16_RANGE
    omega
  · simp [hmap]
  · simp [hmap]
  · simp [hmap]

/-- Witness of C3: the names "A", "B", "C". -/
theorem add_tabs_count_and_map_witness :
    ["A", "B", "C"].length < 65536 ∧
    ∃ tv, add_tabs env300 lv_tabview_create ["A", "B", "C"] = .ok tv ∧
      tv.tab_cnt = ["A", "B", "C"].length ∧
      tv.btns.map.length = ["A", "B", "C"].length + 1 ∧
      tv.btns.map.take ["A", "B", "C"].length = ["A", "B", "C"] ∧
      tv.btns.map.getLast? = some "" :=
  ⟨by decide, add_tabs_count_and_map env300 ["A", "B", "C"] (by decide)⟩

/-- Counterexample to C3 as stated: after 65536 calls of `lv_tabview_add_tab`
on a freshly created tab view `tab_cnt` is 0, not 65536. -/
theorem add_tabs_count_wraps :
    ∃ tv, add_tabs env300 lv_tabview_create (List.replicate 65536 "T") = .ok tv ∧
      tv.tab_cnt = 0 ∧ tv.tab_cnt ≠ (List.replicate 65536 "T").length := by
  obtain ⟨tv, hrun, -, -, -, hcnt, -⟩ :=
    add_tabs_create env300 (List.replicate 65536 "T")
  have h0 : tv.tab_cnt = 0 := by
    rw [hcnt, List.length_replicate]
    rfl
  exact ⟨tv, hrun, h0, by rw [h0, List.length_replicate]; decide⟩

/-- C4: in every state reached from a freshly created tab view by
`lv_tabview_add_tab`, `lv_tabview_set_act` with any index, selector events and
content container events with any settle position, `tab_cur < tab_cnt` holds
whenever `tab_cnt > 0`. -/
theorem active_index_below_count (tv : lv_tabview_t) (htv : Reachable tv)
    (hpos : 0 < tv.tab_cnt) : tv.tab_cur < tv.tab_cnt :=
  (reachable_inv tv htv).2.2.2.2.2 hpos

/-- Witness of C4: the three tabs "A", "B", "C". -/
theorem active_index_below_count_witness :
    Reachable tabs3 ∧ 0 < tabs3.tab_cnt ∧ tabs3.tab_cur < tabs3.tab_cnt :=
  ⟨reachable_tabs3, by decide, active_index_below_count tabs3 reachable_tabs3 (by decide)⟩

/-- C10: in every `lv_tabview_add_tab` call on a tab view built through create
and `n` calls of add_tab, the number of entries copied from the old selector
map is `n` (the new page count minus one), strictly less than the length
`n + 1` of the old map; the copy reads inside the old map and leaves out its
terminator; the new map is the copied entries, the new name and the
terminator; on the very first call nothing is copied and the name is written
at index 0. -/
theorem add_tab_copy_count (env : Env) (n : Nat) (tv : lv_tabview_t) (name : String)
    (hbuilt : BuiltByAdds n tv) :
    copy_count (lv_obj_get_child_cnt (lv_obj_create (lv_tabview_get_content tv))) = n ∧
    lv_obj_get_child_cnt (lv_obj_create (lv_tabview_get_content tv)) - 1 = n ∧
    n < (lv_btnmatrix_get_map (lv_tabview_get_tab_btns tv)).length ∧
    (lv_btnmatrix_get_map (lv_tabview_get_tab_btns tv)).length = n + 1 ∧
    ∃ copied,
      lv_memcpy_small (lv_btnmatrix_get_map (lv_tabview_get_tab_btns tv))
        (copy_count (lv_obj_get_child_cnt (lv_obj_create (lv_tabview_get_content tv))))
        = .ok copied ∧
      copied.length = n ∧
      copied ++ [""] = lv_btnmatrix_get_map (lv_tabview_get_tab_btns tv) ∧
      (∃ tv1, lv_tabview_add_tab env tv name = .ok tv1 ∧
        tv1.btns.map = copied ++ [name] ++ [""] ∧ tv1.btns.map[n]? = some name) ∧
      (n = 0 → copied = []) := by
  obtain ⟨hinv, hchild, -⟩ := built_inv n tv hbuilt
  obtain ⟨tv1, hok, hmap1, -⟩ := add_tab_spec env tv name hinv
  obtain ⟨-, ⟨hlen, hdrop⟩, -⟩ := hinv
  simp only [copy_count, lv_obj_get_child_cnt, lv_obj_create, lv_tabview_get_content,
    lv_btnmatrix_get_map, lv_tabview_get_tab_btns, lv_memcpy_small, Nat.add_sub_cancel]
  rw [hchild] at hlen hdrop hmap1
  rw [hchild, if_pos (by omega)]
  have htake : (List.take n tv.btns.map).length = n := by
    rw [List.length_take]
    omega
  refine ⟨rfl, rfl, by omega, hlen, _, rfl, htake, ?_, ⟨tv1, hok, hmap1, ?_⟩, ?_⟩
  · conv_rhs => rw [← List.take_append_drop n tv.btns.map, hdrop]
  · rw [hmap1, List.append_assoc, List.getElem?_append_right (by omega), htake]
    simp
  · intro h0
    subst h0
    simp

/-- Witness of C10: a fourth tab "D" on the three tabs "A", "B", "C". -/
theorem add_tab_copy_count_witness :
    BuiltByAdds 3 tabs3 ∧
    copy_count (lv_obj_get_child_cnt (lv_obj_create (lv_tabview_get_content tabs3))) = 3 :=
  ⟨built_tabs3, (add_tab_copy_count env300 3 tabs3 "D" built_tabs3).1⟩

/-- C2, amended: on a tab view with `tab_cnt > 0`, `lv_tabview_set_act` with
index `k` issues exactly one `lv_obj_scroll_to_x` on the content container,
animated, whose target is `i * (page_width + gap)` for the clamped index
`i = min k (tab_cnt - 1)`, provided that product is a value of `lv_coord_t`. -/
theorem set_act_scroll_target (env : Env) (tv : lv_tabview_t) (k : Nat)
    (htv : Reachable tv) (hpos : 0 < tv.tab_cnt)
    (hb : 0 < env.coord_bits) (hb32 : env.coord_bits ≤ 32)
    (hfit : coord_range env.coord_bits
      (((min k (tv.tab_cnt - 1) : Nat) : Int) * (env.page_width + env.pad_column))) :
    ∃ tv1, lv_tabview_set_act env tv k = .ok tv1 ∧
      tv1.cont.scroll_calls = tv.cont.scroll_calls ++
        [⟨((min k (tv.tab_cnt - 1) : Nat) : Int) * (env.page_width + env.pad_column), true⟩] := by
  have hinv := reachable_inv tv htv
  have hlt := tv_inv_cnt_lt tv hinv
  refine ⟨_, set_act_ok env tv k (tv_inv_page tv hinv hpos), ?_⟩
  simp only [lv_obj_scroll_to_x]
  rw [clamp_id_eq_min _ _ hpos hlt, scroll_target_eq env _ hb hb32 hfit]

/-- Witness of C2: three pages of width 300, gap 0 and `k = 2` give the
target 600. -/
theorem set_act_scroll_target_witness :
    Reachable tabs3 ∧ 0 < tabs3.tab_cnt ∧ 0 < env300.coord_bits ∧ env300.coord_bits ≤ 32 ∧
    coord_range env300.coord_bits
      (((min 2 (tabs3.tab_cnt - 1) : Nat) : Int) * (env300.page_width + env300.pad_column)) ∧
    ∃ tv1, lv_tabview_set_act env300 tabs3 2 = .ok tv1 ∧
      tv1.cont.scroll_calls = tabs3.cont.scroll_calls ++ [⟨600, true⟩] :=
  ⟨reachable_tabs3, by decide, by decide, by decide, by unfold coord_range; decide,
    set_act_scroll_target env300 tabs3 2 reachable_tabs3 (by decide) (by decide) (by decide)
      (by unfold coord_range; decide)⟩

/-- Counterexample to C2 as stated: with 16-bit coordinates, 200 pages of
width 320 and `k = 150` the product is 48000 but the scroll target is -17536;
with 32-bit coordinates, 65535 pages of width 32770 and `k = 65534` the
product is 2147549180 but the scroll target is -2147418116. -/
theorem set_act_scroll_target_overflow :
    (∃ tv tv1, add_tabs env320 lv_tabview_create (List.replicate 200 "T") = .ok tv ∧
      tv.tab_cnt = 200 ∧
      lv_tabview_set_act env320 tv 150 = .ok tv1 ∧
      tv1.cont.scroll_calls = tv.cont.scroll_calls ++ [⟨-17536, true⟩] ∧
      ((min 150 (tv.tab_cnt - 1) : Nat) : Int) * (env320.page_width + env320.pad_column)
        = 48000) ∧
    (∃ tv tv1, add_tabs env_large lv_tabview_create (List.replicate 65535 "T") = .ok tv ∧
      tv.tab_cnt = 65535 ∧
      lv_tabview_set_act env_large tv 65534 = .ok tv1 ∧
      tv1.cont.scroll_calls = tv.cont.scroll_calls ++ [⟨-2147418116, true⟩] ∧
      ((min 65534 (tv.tab_cnt - 1) : Nat) : Int)
        * (env_large.page_width + env_large.pad_column) = 2147549180) := by
  constructor
  · obtain ⟨tv, hrun, -, -, hchild, hcnt, -⟩ :=
      add_tabs_create env320 (List.replicate 200 "T")
    rw [List.length_replicate] at hchild hcnt
    have hcnt1 : tv.tab_cnt = 200 := by rw [hcnt]; rfl
    refine ⟨tv, _, hrun, hcnt1, set_act_ok env320 tv 150 (by omega), ?_, ?_⟩
    · simp only [lv_obj_scroll_to_x, hcnt1, clamp_id_lt 200 150 (by omega)]
      rfl
    · rw [hcnt1]
      rfl
  · obtain ⟨tv, hrun, -, -, hchild, hcnt, -⟩ :=
      add_tabs_create env_large (List.replicate 65535 "T")
    rw [List.length_replicate] at hchild hcnt
    have hcnt1 : tv.tab_cnt = 65535 := by rw [hcnt]; rfl
    refine ⟨tv, _, hrun, hcnt1, set_act_ok env_large tv 65534 (by omega), ?_, ?_⟩
    · simp only [lv_obj_scroll_to_x, hcnt1, clamp_id_lt 65535 65534 (by omega)]
      rfl
    · rw [hcnt1]
      rfl

/-- C8, amended: on a tab view with `tab_cnt == 0`, `lv_tabview_add_tab` enters
the selection path only after it has created the page and incremented
`tab_cnt`: its `lv_tabview_set_act` call runs with `tab_cnt == 1`, index 0
inside the range and a first page present, and completes. -/
theorem add_tab_selects_after_increment (env : Env) (tv : lv_tabview_t) (name : String)
    (htv : Reachable tv) (hzero : tv.tab_cnt = 0) :
    ∃ tv1, add_tab_grow tv name = .ok tv1 ∧
      tv1.tab_cnt = 1 ∧
      lv_obj_get_child tv1.cont 0 = some 0 ∧
      clamp_id tv1.tab_cnt 0 = 0 ∧
      lv_tabview_add_tab env tv name = (lv_tabview_set_act env tv1 0).map add_tab_check ∧
      ∃ tv2, lv_tabview_set_act env tv1 0 = .ok tv2 := by
  have hinv := reachable_inv tv htv
  have hgrow := add_tab_grow_ok tv name hinv.2.1.1
  refine ⟨_, hgrow, ?_, ?_, ?_, ?_, _, set_act_ok env _ 0 (by simp)⟩
  · simp [hzero, to_uint16, UINT16_RANGE]
  · simp [lv_obj_get_child]
  · simp [hzero, to_uint16, UINT16_RANGE, clamp_id]
  · unfold lv_tabview_add_tab
    rw [hgrow]
    simp only [hzero, to_uint16, UINT16_RANGE]
    rw [set_act_ok env _ 0 (by simp)]
    rfl

/-- Witness of C8: the first tab on a freshly created tab view. -/
theorem add_tab_selects_after_increment_witness :
    Reachable lv_tabview_create ∧ lv_tabview_create.tab_cnt = 0 ∧
    ∃ tv1, add_tab_grow lv_tabview_create "A" = .ok tv1 ∧
      tv1.tab_cnt = 1 ∧
      lv_obj_get_child tv1.cont 0 = some 0 ∧
      clamp_id tv1.tab_cnt 0 = 0 ∧
      lv_tabview_add_tab env300 lv_tabview_create "A"
        = (lv_tabview_set_act env300 tv1 0).map add_tab_check ∧
      ∃ tv2, lv_tabview_set_act env300 tv1 0 = .ok tv2 :=
  ⟨Reachable.create, rfl,
    add_tab_selects_after_increment env300 lv_tabview_create "A" Reachable.create rfl⟩

/-- Counterexample to C8 as stated: on a freshly created tab view, with
`tab_cnt == 0`, the public call `lv_tabview_set_act`, a value-changed event of
the selector and a scroll-end event of the content container all run the
selection path: the index is clamped to `tab_cnt - 1`, which is 4294967295 as
a `uint32_t`, and the first page is looked up, where there is none. -/
theorem zero_tabs_enter_selection_path :
    lv_tabview_create.tab_cnt = 0 ∧
    lv_tabview_set_act env300 lv_tabview_create 0
      = .error (.null_first_page 4294967295) ∧
    btns_event_cb env300 lv_tabview_create .LV_EVENT_VALUE_CHANGED
      = .error (.null_first_page 4294967295) ∧
    cont_event_cb env300 lv_tabview_create .LV_EVENT_SCROLL_END
      = .error (.null_first_page 4294967295) :=
  ⟨rfl, rfl, rfl, rfl⟩

end LvTabview
